import Mathlib

/-!
Verification of the cadencetest rate-limiting / admission-control core and its
error envelope, against the repository's specification.

The `Nervio` namespace models the `nervio_limiter` crate surface (Limiter,
Bucket, BucketConfig, Decision).  That crate's implementation is not part of
the repository sources; the definitions are modelled from the specification's
algorithm (spec §3, §4.1).  Times and durations are natural numbers of
seconds; instant subtraction saturates at zero, matching Rust's monotonic
`Instant` arithmetic.

The `IamService` namespace embeds `setup_limiter` and `build_router` from
`src/apis/iam-service/src/lib.rs`.  The `CadenceCommon` namespace embeds the
error and response envelope types from `src/apis/cadence-common/src/error.rs`
and `src/apis/cadence-common/src/api/{error,response}.rs`.
-/

namespace Spec2Proof

namespace Nervio

/-- Modelled from the spec: the dimension by which callers are grouped.  The
observed usage has a single dimension, the proxied client IP. -/
inductive LimitEntityType where
  | ProxiedIP
deriving DecidableEq

/-- Modelled from the spec: immutable description of one rate-limit policy
(spec §3).  `cycle_duration` is in seconds. -/
structure BucketConfig where
  name : String
  limit_by : LimitEntityType
  max_requests_per_cycle : Nat
  cycle_duration : Nat
deriving DecidableEq

/-- Modelled from the spec: a single counter instance scoped to one concrete
key, tracking requests-so-far and the cycle's start time (spec §3). -/
structure Bucket where
  count : Nat
  cycle_start : Nat
deriving DecidableEq

/-- Modelled from the spec: the admission decision.  `remaining` and
`retry_after` are integers so that the spec's non-negativity claims are
meaningful rather than true by type. -/
inductive Decision where
  | Admitted (remaining : Int)
  | Rejected (retry_after : Int)
deriving DecidableEq

/-- Modelled from the spec: an empty entity key is a configuration/programmer
error and fails fast (spec §4.1). -/
inductive LimiterError where
  | EmptyEntityKey
deriving DecidableEq

/-- Association-list lookup for the bucket registry, keyed by the composite
(policy name, entity key). -/
def lookupBucket (k : String × String) :
    List ((String × String) × Bucket) → Option Bucket
  | [] => none
  | (k', b) :: rest => if k' = k then some b else lookupBucket k rest

/-- Association-list insert-or-replace for the bucket registry. -/
def updateBucket (k : String × String) (b : Bucket) :
    List ((String × String) × Bucket) → List ((String × String) × Bucket)
  | [] => [(k, b)]
  | (k', b') :: rest =>
      if k' = k then (k, b) :: rest else (k', b') :: updateBucket k b rest

/-- Modelled from the spec: the Limiter owns a mapping from composite bucket
key to Bucket (spec §3). -/
structure Limiter where
  buckets : List ((String × String) × Bucket)
deriving DecidableEq

/-- Lookup of the bucket for a composite key. -/
def Limiter.find (l : Limiter) (k : String × String) : Option Bucket :=
  lookupBucket k l.buckets

/-- Modelled from the spec: fixed-window cycle rollover (spec §4.1 step 3).
If `now - cycle_start >= cycle_duration` the bucket resets in place. -/
def rollBucket (now : Nat) (config : BucketConfig) (b : Bucket) : Bucket :=
  if config.cycle_duration ≤ now - b.cycle_start then
    { count := 0, cycle_start := now }
  else b

/-- Modelled from the spec: `check_and_increment` (spec §4.1).  Computes the
composite key, looks up or lazily creates the bucket (`count = 0`,
`cycle_start = now`), rolls the cycle over if expired, then admits (and
increments) while `count < max_requests_per_cycle`, else rejects with
`retry_after = cycle_duration - (now - cycle_start)`.  An empty entity key
fails fast with a configuration error and leaves the limiter unchanged. -/
def check_and_increment (now : Nat) (config : BucketConfig)
    (entity_key : String) (l : Limiter) :
    Except LimiterError Decision × Limiter :=
  if entity_key = "" then (.error .EmptyEntityKey, l)
  else
    let key := (config.name, entity_key)
    let b := rollBucket now config
      ((l.find key).getD { count := 0, cycle_start := now })
    if b.count < config.max_requests_per_cycle then
      let b' : Bucket := { count := b.count + 1, cycle_start := b.cycle_start }
      (.ok (.Admitted ((config.max_requests_per_cycle : Int) - (b'.count : Int))),
       { buckets := updateBucket key b' l.buckets })
    else
      (.ok (.Rejected ((config.cycle_duration : Int) - ((now - b.cycle_start : Nat) : Int))),
       { buckets := updateBucket key b l.buckets })

/-- A sequence of `check_and_increment` calls for one (policy, entity key)
pair at the given instants, threading the limiter state and collecting the
per-call results.  Because the source guards the limiter with a mutex, any
concurrent execution of the calls is equivalent to some such sequence. -/
def runSeq (config : BucketConfig) (entity_key : String) :
    Limiter → List Nat → List (Except LimiterError Decision) × Limiter
  | l, [] => ([], l)
  | l, t :: ts =>
      let p := check_and_increment t config entity_key l
      let q := runSeq config entity_key p.2 ts
      (p.1 :: q.1, q.2)

/-- Recognizer for admitted results. -/
def isAdmitted : Except LimiterError Decision → Bool
  | .ok (.Admitted _) => true
  | _ => false

/-- Recognizer for rejected results. -/
def isRejected : Except LimiterError Decision → Bool
  | .ok (.Rejected _) => true
  | _ => false

/-- Number of admitted results in a run. -/
def countAdmitted (rs : List (Except LimiterError Decision)) : Nat :=
  rs.countP isAdmitted

/-- Number of rejected results in a run. -/
def countRejected (rs : List (Except LimiterError Decision)) : Nat :=
  rs.countP isRejected

end Nervio

namespace IamService

/-- HTTP methods used by the IAM service router
(`src/apis/iam-service/src/lib.rs`). -/
inductive HttpMethod where
  | get
  | post
  | patch
  | delete
deriving DecidableEq

/-- Middleware layers appearing in `build_router`: the rate-limiter
middleware (carrying its `(limiter, bucket_config)` state), the
authentication route layer, the CORS layer and the request-body size limit. -/
inductive MiddlewareLayer where
  | limiterMiddleware (bucket_config : Nervio.BucketConfig)
  | requireAuthentication
  | corsLayer
  | requestBodyLimit (bytes : Nat)
deriving DecidableEq

/-- One `.route(path, ...)` registration: the path, the method-to-handler
bindings, and the route-scoped layers attached with `route_layer`. -/
structure RouteEntry where
  path : String
  handlers : List (HttpMethod × String)
  route_layers : List MiddlewareLayer
deriving DecidableEq

/-- Shallow model of the axum `Router` value produced by `build_router`:
the registered routes plus the outer layers applied (by `.layer`, after all
routes are registered) to every route. -/
structure Router where
  routes : List RouteEntry
  layers : List MiddlewareLayer
deriving DecidableEq

/-- The middleware stack that effectively wraps one registered route: its
route-scoped layers plus the router-wide outer layers. -/
def Router.effectiveLayers (r : Router) (e : RouteEntry) : List MiddlewareLayer :=
  e.route_layers ++ r.layers

/-- Whether a layer is the rate-limiter middleware (under any policy). -/
def MiddlewareLayer.isLimiter : MiddlewareLayer → Bool
  | .limiterMiddleware _ => true
  | _ => false

/-- `setup_limiter` from `src/apis/iam-service/src/lib.rs` lines 60-70: a
fresh empty limiter plus the single global `BucketConfig` (name
`service_global`, keyed by proxied client IP, 20 requests per 60-second
cycle). -/
def setup_limiter : Nervio.Limiter × Nervio.BucketConfig :=
  ({ buckets := [] },
   { name := "service_global"
     limit_by := .ProxiedIP
     max_requests_per_cycle := 20
     cycle_duration := 60 })

/-- `build_router` from `src/apis/iam-service/src/lib.rs` lines 101-146: the
five route registrations in source order, then the outer layers — the
rate-limiter middleware over the given bucket config, the CORS layer, and a
4096-byte request body limit. -/
def build_router (bucket_config : Nervio.BucketConfig) : Router :=
  { routes :=
      [ { path := "/auth/token"
          handlers := [(.post, "request_token_controller")]
          route_layers := [] }
      , { path := "/auth/token"
          handlers := [(.get, "validate_token_controller")]
          route_layers := [.requireAuthentication] }
      , { path := "/account"
          handlers := [(.get, "get_account_controller"),
                       (.post, "create_account_controller"),
                       (.delete, "delete_account_controller")]
          route_layers := [] }
      , { path := "/account"
          handlers := [(.patch, "update_account_controller")]
          route_layers := [.requireAuthentication] }
      , { path := "/accounts"
          handlers := [(.get, "get_accounts_controller")]
          route_layers := [] } ]
    layers := [.limiterMiddleware bucket_config, .corsLayer, .requestBodyLimit 4096] }

end IamService

namespace CadenceCommon

/-- `InputError` from `src/apis/cadence-common/src/error.rs`. -/
inductive InputError where
  | MissingField (s : String)
  | InvalidField (s : String)
  | InvalidValue (s : String)
  | InvalidType (s : String)
  | InvalidFormat (s : String)
  | InvalidLength (s : String)
  | InvalidRange (s : String)
  | InvalidPattern (s : String)
  | InvalidEnumValue (s : String)
deriving DecidableEq

/-- `AuthError` from `src/apis/cadence-common/src/error.rs`. -/
inductive AuthError where
  | Unauthorized (s : String)
  | InvalidRequest (s : String)
  | InvalidResponse (s : String)
  | InvalidCredentials (s : String)
  | InvalidToken (s : String)
  | InvalidSignature (s : String)
  | InvalidScope (s : String)
  | InvalidGrant (s : String)
  | InvalidClient (s : String)
  | InvalidRedirectUri (s : String)
  | InvalidAudience (s : String)
  | InvalidIssuer (s : String)
  | InvalidSubject (s : String)
  | InternalServerError (s : String)
  | ExpiredToken (s : String)
  | MissingToken (s : String)
  | MismatchToken (s : String)
deriving DecidableEq

/-- `EntityError` from `src/apis/cadence-common/src/error.rs`. -/
inductive EntityError where
  | NotFound (s : String)
  | AlreadyExists (s : String)
  | InvalidState (s : String)
  | InvalidTransition (s : String)
  | InvalidAssociation (s : String)
  | InvalidRelation (s : String)
  | InvalidReference (s : String)
  | InvalidForeignKey (s : String)
  | InvalidUniqueConstraint (s : String)
  | InvalidIntegrity (s : String)
  | InvalidDataType (s : String)
deriving DecidableEq

/-- `DatabaseError` from `src/apis/cadence-common/src/error.rs`. -/
inductive DatabaseError where
  | ConnectionFailed (s : String)
  | QueryFailed (s : String)
  | TransactionFailed (s : String)
  | Timeout (s : String)
  | Deadlock (s : String)
  | ConstraintViolation (s : String)
  | InsertionError (s : String)
  | UpdateError (s : String)
  | DeletionError (s : String)
  | RetrievalError (s : String)
  | RecordNotFound (s : String)
deriving DecidableEq

/-- `ServerError` from `src/apis/cadence-common/src/error.rs`. -/
inductive ServerError where
  | InternalError (s : String)
  | ServiceUnavailable (s : String)
  | GatewayTimeout (s : String)
  | BadRequest (s : String)
  | EnviromentParseError (s : String)
deriving DecidableEq

/-- `CadenceError` from `src/apis/cadence-common/src/error.rs` lines 5-13:
the machine-readable error kind of the system's structured error envelope. -/
inductive CadenceError where
  | Input (e : InputError)
  | Auth (e : AuthError)
  | Entity (e : EntityError)
  | Database (e : DatabaseError)
  | ServerError (e : ServerError)
deriving DecidableEq

/-- The serde snake_case tag of an `InputError` variant. -/
def InputError.tag : InputError → String
  | .MissingField _ => "missing_field"
  | .InvalidField _ => "invalid_field"
  | .InvalidValue _ => "invalid_value"
  | .InvalidType _ => "invalid_type"
  | .InvalidFormat _ => "invalid_format"
  | .InvalidLength _ => "invalid_length"
  | .InvalidRange _ => "invalid_range"
  | .InvalidPattern _ => "invalid_pattern"
  | .InvalidEnumValue _ => "invalid_enum_value"

/-- The string payload of an `InputError` variant. -/
def InputError.payload : InputError → String
  | .MissingField s | .InvalidField s | .InvalidValue s | .InvalidType s
  | .InvalidFormat s | .InvalidLength s | .InvalidRange s
  | .InvalidPattern s | .InvalidEnumValue s => s

/-- The serde snake_case tag of an `AuthError` variant. -/
def AuthError.tag : AuthError → String
  | .Unauthorized _ => "unauthorized"
  | .InvalidRequest _ => "invalid_request"
  | .InvalidResponse _ => "invalid_response"
  | .InvalidCredentials _ => "invalid_credentials"
  | .InvalidToken _ => "invalid_token"
  | .InvalidSignature _ => "invalid_signature"
  | .InvalidScope _ => "invalid_scope"
  | .InvalidGrant _ => "invalid_grant"
  | .InvalidClient _ => "invalid_client"
  | .InvalidRedirectUri _ => "invalid_redirect_uri"
  | .InvalidAudience _ => "invalid_audience"
  | .InvalidIssuer _ => "invalid_issuer"
  | .InvalidSubject _ => "invalid_subject"
  | .InternalServerError _ => "internal_server_error"
  | .ExpiredToken _ => "expired_token"
  | .MissingToken _ => "missing_token"
  | .MismatchToken _ => "mismatch_token"

/-- The string payload of an `AuthError` variant. -/
def AuthError.payload : AuthError → String
  | .Unauthorized s | .InvalidRequest s | .InvalidResponse s
  | .InvalidCredentials s | .InvalidToken s | .InvalidSignature s
  | .InvalidScope s | .InvalidGrant s | .InvalidClient s
  | .InvalidRedirectUri s | .InvalidAudience s | .InvalidIssuer s
  | .InvalidSubject s | .InternalServerError s | .ExpiredToken s
  | .MissingToken s | .MismatchToken s => s

/-- The serde snake_case tag of an `EntityError` variant. -/
def EntityError.tag : EntityError → String
  | .NotFound _ => "not_found"
  | .AlreadyExists _ => "already_exists"
  | .InvalidState _ => "invalid_state"
  | .InvalidTransition _ => "invalid_transition"
  | .InvalidAssociation _ => "invalid_association"
  | .InvalidRelation _ => "invalid_relation"
  | .InvalidReference _ => "invalid_reference"
  | .InvalidForeignKey _ => "invalid_foreign_key"
  | .InvalidUniqueConstraint _ => "invalid_unique_constraint"
  | .InvalidIntegrity _ => "invalid_integrity"
  | .InvalidDataType _ => "invalid_data_type"

/-- The string payload of an `EntityError` variant. -/
def EntityError.payload : EntityError → String
  | .NotFound s | .AlreadyExists s | .InvalidState s | .InvalidTransition s
  | .InvalidAssociation s | .InvalidRelation s | .InvalidReference s
  | .InvalidForeignKey s | .InvalidUniqueConstraint s | .InvalidIntegrity s
  | .InvalidDataType s => s

/-- The serde snake_case tag of a `DatabaseError` variant. -/
def DatabaseError.tag : DatabaseError → String
  | .ConnectionFailed _ => "connection_failed"
  | .QueryFailed _ => "query_failed"
  | .TransactionFailed _ => "transaction_failed"
  | .Timeout _ => "timeout"
  | .Deadlock _ => "deadlock"
  | .ConstraintViolation _ => "constraint_violation"
  | .InsertionError _ => "insertion_error"
  | .UpdateError _ => "update_error"
  | .DeletionError _ => "deletion_error"
  | .RetrievalError _ => "retrieval_error"
  | .RecordNotFound _ => "record_not_found"

/-- The string payload of a `DatabaseError` variant. -/
def DatabaseError.payload : DatabaseError → String
  | .ConnectionFailed s | .QueryFailed s | .TransactionFailed s
  | .Timeout s | .Deadlock s | .ConstraintViolation s | .InsertionError s
  | .UpdateError s | .DeletionError s | .RetrievalError s
  | .RecordNotFound s => s

/-- The serde snake_case tag of a `ServerError` variant. -/
def ServerError.tag : ServerError → String
  | .InternalError _ => "internal_error"
  | .ServiceUnavailable _ => "service_unavailable"
  | .GatewayTimeout _ => "gateway_timeout"
  | .BadRequest _ => "bad_request"
  | .EnviromentParseError _ => "enviroment_parse_error"

/-- The string payload of a `ServerError` variant. -/
def ServerError.payload : ServerError → String
  | .InternalError s | .ServiceUnavailable s | .GatewayTimeout s
  | .BadRequest s | .EnviromentParseError s => s

/-- The serde snake_case top-level tag of a `CadenceError`: the outer
machine-readable kind of the envelope. -/
def CadenceError.kind : CadenceError → String
  | .Input _ => "input"
  | .Auth _ => "auth"
  | .Entity _ => "entity"
  | .Database _ => "database"
  | .ServerError _ => "server_error"

/-- The serde snake_case inner tag of a `CadenceError`: the variant-level
machine-readable kind. -/
def CadenceError.subKind : CadenceError → String
  | .Input e => e.tag
  | .Auth e => e.tag
  | .Entity e => e.tag
  | .Database e => e.tag
  | .ServerError e => e.tag

/-- The single string payload carried by a `CadenceError`. -/
def CadenceError.payload : CadenceError → String
  | .Input e => e.payload
  | .Auth e => e.payload
  | .Entity e => e.payload
  | .Database e => e.payload
  | .ServerError e => e.payload

/-- Rebuild an `InputError` from its tag and payload. -/
def InputError.ofTag (t p : String) : Option InputError :=
  match t with
  | "missing_field" => some (.MissingField p)
  | "invalid_field" => some (.InvalidField p)
  | "invalid_value" => some (.InvalidValue p)
  | "invalid_type" => some (.InvalidType p)
  | "invalid_format" => some (.InvalidFormat p)
  | "invalid_length" => some (.InvalidLength p)
  | "invalid_range" => some (.InvalidRange p)
  | "invalid_pattern" => some (.InvalidPattern p)
  | "invalid_enum_value" => some (.InvalidEnumValue p)
  | _ => none

/-- Rebuild an `AuthError` from its tag and payload. -/
def AuthError.ofTag (t p : String) : Option AuthError :=
  match t with
  | "unauthorized" => some (.Unauthorized p)
  | "invalid_request" => some (.InvalidRequest p)
  | "invalid_response" => some (.InvalidResponse p)
  | "invalid_credentials" => some (.InvalidCredentials p)
  | "invalid_token" => some (.InvalidToken p)
  | "invalid_signature" => some (.InvalidSignature p)
  | "invalid_scope" => some (.InvalidScope p)
  | "invalid_grant" => some (.InvalidGrant p)
  | "invalid_client" => some (.InvalidClient p)
  | "invalid_redirect_uri" => some (.InvalidRedirectUri p)
  | "invalid_audience" => some (.InvalidAudience p)
  | "invalid_issuer" => some (.InvalidIssuer p)
  | "invalid_subject" => some (.InvalidSubject p)
  | "internal_server_error" => some (.InternalServerError p)
  | "expired_token" => some (.ExpiredToken p)
  | "missing_token" => some (.MissingToken p)
  | "mismatch_token" => some (.MismatchToken p)
  | _ => none

/-- Rebuild an `EntityError` from its tag and payload. -/
def EntityError.ofTag (t p : String) : Option EntityError :=
  match t with
  | "not_found" => some (.NotFound p)
  | "already_exists" => some (.AlreadyExists p)
  | "invalid_state" => some (.InvalidState p)
  | "invalid_transition" => some (.InvalidTransition p)
  | "invalid_association" => some (.InvalidAssociation p)
  | "invalid_relation" => some (.InvalidRelation p)
  | "invalid_reference" => some (.InvalidReference p)
  | "invalid_foreign_key" => some (.InvalidForeignKey p)
  | "invalid_unique_constraint" => some (.InvalidUniqueConstraint p)
  | "invalid_integrity" => some (.InvalidIntegrity p)
  | "invalid_data_type" => some (.InvalidDataType p)
  | _ => none

/-- Rebuild a `DatabaseError` from its tag and payload. -/
def DatabaseError.ofTag (t p : String) : Option DatabaseError :=
  match t with
  | "connection_failed" => some (.ConnectionFailed p)
  | "query_failed" => some (.QueryFailed p)
  | "transaction_failed" => some (.TransactionFailed p)
  | "timeout" => some (.Timeout p)
  | "deadlock" => some (.Deadlock p)
  | "constraint_violation" => some (.ConstraintViolation p)
  | "insertion_error" => some (.InsertionError p)
  | "update_error" => some (.UpdateError p)
  | "deletion_error" => some (.DeletionError p)
  | "retrieval_error" => some (.RetrievalError p)
  | "record_not_found" => some (.RecordNotFound p)
  | _ => none

/-- Rebuild a `ServerError` from its tag and payload. -/
def ServerError.ofTag (t p : String) : Option ServerError :=
  match t with
  | "internal_error" => some (.InternalError p)
  | "service_unavailable" => some (.ServiceUnavailable p)
  | "gateway_timeout" => some (.GatewayTimeout p)
  | "bad_request" => some (.BadRequest p)
  | "enviroment_parse_error" => some (.EnviromentParseError p)
  | _ => none

/-- Rebuild a `CadenceError` from its outer kind, inner kind and payload.
Its totality on the image of `(kind, subKind, payload)` shows that a
`CadenceError` carries exactly those three pieces of data — in particular no
duration-typed field anywhere. -/
def mkCadenceError (k sk p : String) : Option CadenceError :=
  match k with
  | "input" => (InputError.ofTag sk p).map .Input
  | "auth" => (AuthError.ofTag sk p).map .Auth
  | "entity" => (EntityError.ofTag sk p).map .Entity
  | "database" => (DatabaseError.ofTag sk p).map .Database
  | "server_error" => (ServerError.ofTag sk p).map .ServerError
  | _ => none

/-- Follows the spec's words: the machine-readable kind strings that would
mean "rate limited" in a snake_case-tagged envelope. -/
def rateLimitedKindStrings : List String :=
  ["rate_limited", "rate_limit", "rate_limit_exceeded", "too_many_requests"]

/-- `APIResponseErrorDetail` from `src/apis/cadence-common/src/api/error.rs`. -/
structure APIResponseErrorDetail where
  detailed_feedback : String
  source : Option String
deriving DecidableEq

/-- `APIResponseError` from `src/apis/cadence-common/src/api/error.rs` lines
17-25: the structured error object of the envelope — a machine-readable
`CadenceError`, a human-readable message, and a list of details. -/
structure APIResponseError where
  error : CadenceError
  message : String
  details : List APIResponseErrorDetail
deriving DecidableEq

/-- `APIResponseStatus` from `src/apis/cadence-common/src/api/response.rs`. -/
inductive APIResponseStatus where
  | Success
  | Failure
deriving DecidableEq

/-- `APIResponseObjectType` from `src/apis/cadence-common/src/api/response.rs`. -/
inductive APIResponseObjectType where
  | Account
  | EventMetadata
  | EventTime
  | Recurrence
  | Exception
  | Goal
  | Tag
  | Flag
  | Email
  | ExternalIdentity
  | Energy
  | Unknown
  | Auth
  | None
deriving DecidableEq

/-- `http::StatusCode`: a `u16` restricted to the range 100-999 (the range
accepted by `StatusCode::from_u16`).  `APIResponse::failure` receives an
already-validated status code of this type. -/
structure StatusCode where
  code : Nat
  is_valid : 100 ≤ code ∧ code ≤ 999

/-- `APIResponseMetadata` from `src/apis/cadence-common/src/api/response.rs`
lines 41-55.  The UTC timestamp is modelled as an abstract `Nat` supplied by
the caller (the source reads `Utc::now()`). -/
structure APIResponseMetadata where
  api_version : String
  status : APIResponseStatus
  http_status : Nat
  timestamp : Nat
  data_type : APIResponseObjectType
deriving DecidableEq

/-- `APIResponse<T>` from `src/apis/cadence-common/src/api/response.rs`
lines 14-23. -/
structure APIResponse (T : Type) where
  metadata : APIResponseMetadata
  data : Option T
  errors : Option APIResponseError

/-- `CURRENT_API_VERSION` from `src/apis/cadence-common/src/api/response.rs`. -/
def CURRENT_API_VERSION : String := "v1.0"

/-- `APIResponse::success` (response.rs lines 96-105): a success envelope
with HTTP status 200, the data payload, and no errors. -/
def APIResponse.success {T : Type} (now : Nat) (data : T)
    (data_type : APIResponseObjectType) : APIResponse T :=
  { metadata :=
      { api_version := CURRENT_API_VERSION
        status := .Success
        http_status := 200
        timestamp := now
        data_type := data_type }
    data := some data
    errors := none }

/-- `APIResponse::failure` (response.rs lines 120-129): a failure envelope
with the given HTTP status, no data, and the error object. -/
def APIResponse.failure {T : Type} (now : Nat) (error : APIResponseError)
    (http_status : StatusCode) : APIResponse T :=
  { metadata :=
      { api_version := CURRENT_API_VERSION
        status := .Failure
        http_status := http_status.code
        timestamp := now
        data_type := .Unknown }
    data := none
    errors := some error }

/-- The protocol-level response emitted by `IntoResponse`: an HTTP status and
the serialized envelope (modelled as the envelope value itself). -/
structure HttpResponse (T : Type) where
  status : Nat
  body : APIResponse T

/-- `APIResponse::into_response` (response.rs lines 29-33): the HTTP status
is `StatusCode::from_u16(metadata.http_status)`, falling back to 500 when
`http_status` is outside the valid 100-999 range. -/
def APIResponse.into_response {T : Type} (r : APIResponse T) : HttpResponse T :=
  { status :=
      if 100 ≤ r.metadata.http_status ∧ r.metadata.http_status ≤ 999 then
        r.metadata.http_status
      else 500
    body := r }

end CadenceCommon

/-- Test fixture: a small two-request, ten-second policy used by the witness
theorems. -/
def cfgW : Nervio.BucketConfig :=
  { name := "p"
    limit_by := .ProxiedIP
    max_requests_per_cycle := 2
    cycle_duration := 10 }

/-- Test fixture: a limiter with no buckets. -/
def emptyLimiter : Nervio.Limiter := { buckets := [] }

/-- Test fixture: a limiter whose bucket for policy `p` and entity key
`1.2.3.4` has an exhausted budget (`count = 2`) in a cycle started at 0. -/
def busyLimiter : Nervio.Limiter :=
  { buckets := [(("p", "1.2.3.4"), { count := 2, cycle_start := 0 })] }

/-- Test fixture: an envelope with an out-of-range `metadata.http_status`, as
is constructible because the struct's fields are public (and
deserializable). -/
def rawStatusResponse : CadenceCommon.APIResponse Unit :=
  { metadata :=
      { api_version := CadenceCommon.CURRENT_API_VERSION
        status := .Failure
        http_status := 0
        timestamp := 0
        data_type := .Unknown }
    data := none
    errors := none }

/-- Test fixture: a structured error object. -/
def errW : CadenceCommon.APIResponseError :=
  { error := .Input (.MissingField "email")
    message := "Input validation failed"
    details := [] }

/-- Test fixture: HTTP status 404. -/
def scW : CadenceCommon.StatusCode := ⟨404, by decide⟩

/-- Test fixture: a failure envelope with a valid `http_status` of 404. -/
def respW : CadenceCommon.APIResponse Unit :=
  { metadata :=
      { api_version := CadenceCommon.CURRENT_API_VERSION
        status := .Failure
        http_status := 404
        timestamp := 0
        data_type := .Unknown }
    data := none
    errors := some errW }

namespace Nervio

theorem lookup_update_self (k : String × String) (b : Bucket) :
    ∀ xs, lookupBucket k (updateBucket k b xs) = some b := by
  intro xs
  induction xs with
  | nil => simp [updateBucket, lookupBucket]
  | cons hd tl ih =>
    obtain ⟨k', b'⟩ := hd
    by_cases h : k' = k
    · simp [updateBucket, lookupBucket, h]
    · simp [updateBucket, lookupBucket, h, ih]

theorem lookup_update_ne (k k' : String × String) (b : Bucket) (h : k' ≠ k) :
    ∀ xs, lookupBucket k' (updateBucket k b xs) = lookupBucket k' xs := by
  intro xs
  induction xs with
  | nil => simp [updateBucket, lookupBucket, Ne.symm h]
  | cons hd tl ih =>
    obtain ⟨k0, b0⟩ := hd
    by_cases h0 : k0 = k
    · subst h0
      simp [updateBucket, lookupBucket, Ne.symm h]
    · simp [updateBucket, lookupBucket, h0, ih]

theorem check_state_shape (now : Nat) (cfg : BucketConfig) (key : String)
    (l : Limiter) (hk : key ≠ "") :
    ∃ b : Bucket, (check_and_increment now cfg key l).2 =
      { buckets := updateBucket (cfg.name, key) b l.buckets } := by
  unfold check_and_increment
  rw [if_neg hk]
  dsimp only
  split
  · exact ⟨_, rfl⟩
  · exact ⟨_, rfl⟩

theorem check_frame (now : Nat) (cfg : BucketConfig) (key : String)
    (l : Limiter) (k' : String × String) (hne : k' ≠ (cfg.name, key)) :
    ((check_and_increment now cfg key l).2).find k' = l.find k' := by
  by_cases hk : key = ""
  · simp [check_and_increment, hk]
  · obtain ⟨b, hs⟩ := check_state_shape now cfg key l hk
    rw [hs]
    exact lookup_update_ne _ _ _ hne _

theorem check_admits_absent (now : Nat) (cfg : BucketConfig) (key : String)
    (l : Limiter) (hk : key ≠ "") (hb : l.find (cfg.name, key) = none)
    (hmax : 0 < cfg.max_requests_per_cycle) :
    check_and_increment now cfg key l =
      (.ok (.Admitted ((cfg.max_requests_per_cycle : Int) - 1)),
       { buckets := updateBucket (cfg.name, key)
           { count := 1, cycle_start := now } l.buckets }) := by
  simp [check_and_increment, hk, hb, rollBucket, hmax]

theorem check_absent_reject (now : Nat) (cfg : BucketConfig) (key : String)
    (l : Limiter) (hk : key ≠ "") (hb : l.find (cfg.name, key) = none)
    (hmax : cfg.max_requests_per_cycle = 0) :
    check_and_increment now cfg key l =
      (.ok (.Rejected (cfg.cycle_duration : Int)),
       { buckets := updateBucket (cfg.name, key)
           { count := 0, cycle_start := now } l.buckets }) := by
  simp [check_and_increment, hk, hb, rollBucket, hmax]

theorem check_admits_present (now : Nat) (cfg : BucketConfig) (key : String)
    (l : Limiter) (c s : Nat) (hk : key ≠ "")
    (hb : l.find (cfg.name, key) = some { count := c, cycle_start := s })
    (hin : now - s < cfg.cycle_duration) (hc : c < cfg.max_requests_per_cycle) :
    check_and_increment now cfg key l =
      (.ok (.Admitted ((cfg.max_requests_per_cycle : Int) - ((c + 1 : Nat) : Int))),
       { buckets := updateBucket (cfg.name, key)
           { count := c + 1, cycle_start := s } l.buckets }) := by
  simp [check_and_increment, hk, hb, rollBucket, Nat.not_le.mpr hin, hc]

theorem check_present_reject (now : Nat) (cfg : BucketConfig) (key : String)
    (l : Limiter) (c s : Nat) (hk : key ≠ "")
    (hb : l.find (cfg.name, key) = some { count := c, cycle_start := s })
    (hin : now - s < cfg.cycle_duration) (hc : cfg.max_requests_per_cycle ≤ c) :
    check_and_increment now cfg key l =
      (.ok (.Rejected ((cfg.cycle_duration : Int) - ((now - s : Nat) : Int))),
       { buckets := updateBucket (cfg.name, key)
           { count := c, cycle_start := s } l.buckets }) := by
  simp [check_and_increment, hk, hb, rollBucket, Nat.not_le.mpr hin,
    Nat.not_lt.mpr hc]

theorem check_admits_rollover (now : Nat) (cfg : BucketConfig) (key : String)
    (l : Limiter) (c s : Nat) (hk : key ≠ "")
    (hb : l.find (cfg.name, key) = some { count := c, cycle_start := s })
    (hexp : cfg.cycle_duration ≤ now - s) (hmax : 0 < cfg.max_requests_per_cycle) :
    check_and_increment now cfg key l =
      (.ok (.Admitted ((cfg.max_requests_per_cycle : Int) - 1)),
       { buckets := updateBucket (cfg.name, key)
           { count := 1, cycle_start := now } l.buckets }) := by
  simp [check_and_increment, hk, hb, rollBucket, hexp, hmax]

theorem runSeq_results (cfg : BucketConfig) (key : String) (hk : key ≠ "") :
    ∀ (ts : List Nat) (l : Limiter) (c s : Nat),
      l.find (cfg.name, key) = some { count := c, cycle_start := s } →
      (∀ t ∈ ts, t - s < cfg.cycle_duration) →
      ∀ (i ti : Nat), ts[i]? = some ti →
        (runSeq cfg key l ts).1[i]? =
          some (if c + i < cfg.max_requests_per_cycle then
                  .ok (.Admitted ((cfg.max_requests_per_cycle : Int) -
                    ((c + i + 1 : Nat) : Int)))
                else
                  .ok (.Rejected ((cfg.cycle_duration : Int) -
                    ((ti - s : Nat) : Int)))) := by
  intro ts
  induction ts with
  | nil =>
    intro l c s hb hw i ti hti
    simp at hti
  | cons t ts ih =>
    intro l c s hb hw i ti hti
    have hwt : t - s < cfg.cycle_duration := hw t (by simp)
    have hwts : ∀ u ∈ ts, u - s < cfg.cycle_duration :=
      fun u hu => hw u (by simp [hu])
    by_cases hc : c < cfg.max_requests_per_cycle
    · have hstep := check_admits_present t cfg key l c s hk hb hwt hc
      match i with
      | 0 =>
        simp at hti
        subst hti
        simp [runSeq, hstep, hc]
      | i + 1 =>
        simp at hti
        have hb' : (Limiter.mk (updateBucket (cfg.name, key)
            { count := c + 1, cycle_start := s } l.buckets)).find (cfg.name, key) =
            some { count := c + 1, cycle_start := s } :=
          lookup_update_self _ _ _
        have htl := ih _ (c + 1) s hb' hwts i ti hti
        have harith : c + 1 + i = c + (i + 1) := by omega
        rw [harith] at htl
        simpa [runSeq, hstep] using htl
    · have hstep := check_present_reject t cfg key l c s hk hb hwt
        (Nat.le_of_not_lt hc)
      match i with
      | 0 =>
        simp at hti
        subst hti
        simp [runSeq, hstep, hc]
      | i + 1 =>
        simp at hti
        have hb' : (Limiter.mk (updateBucket (cfg.name, key)
            { count := c, cycle_start := s } l.buckets)).find (cfg.name, key) =
            some { count := c, cycle_start := s } :=
          lookup_update_self _ _ _
        have htl := ih _ c s hb' hwts i ti hti
        have h1 : ¬ (c + i < cfg.max_requests_per_cycle) := by omega
        have h2 : ¬ (c + (i + 1) < cfg.max_requests_per_cycle) := by omega
        rw [if_neg h1] at htl
        rw [if_neg h2]
        simpa [runSeq, hstep] using htl

theorem runSeq_state (cfg : BucketConfig) (key : String) (hk : key ≠ "") :
    ∀ (ts : List Nat) (l : Limiter) (c s : Nat),
      l.find (cfg.name, key) = some { count := c, cycle_start := s } →
      (∀ t ∈ ts, t - s < cfg.cycle_duration) →
      c ≤ cfg.max_requests_per_cycle →
      ((runSeq cfg key l ts).2).find (cfg.name, key) =
        some { count := min (c + ts.length) cfg.max_requests_per_cycle,
               cycle_start := s } := by
  intro ts
  induction ts with
  | nil =>
    intro l c s hb hw hcm
    have hmin : min (c + ([] : List Nat).length) cfg.max_requests_per_cycle = c := by
      simp
      omega
    rw [hmin]
    simpa [runSeq] using hb
  | cons t ts ih =>
    intro l c s hb hw hcm
    have hwt : t - s < cfg.cycle_duration := hw t (by simp)
    have hwts : ∀ u ∈ ts, u - s < cfg.cycle_duration :=
      fun u hu => hw u (by simp [hu])
    by_cases hc : c < cfg.max_requests_per_cycle
    · have hstep := check_admits_present t cfg key l c s hk hb hwt hc
      have hb' : (Limiter.mk (updateBucket (cfg.name, key)
          { count := c + 1, cycle_start := s } l.buckets)).find (cfg.name, key) =
          some { count := c + 1, cycle_start := s } :=
        lookup_update_self _ _ _
      have htl := ih _ (c + 1) s hb' hwts (by omega)
      have harith : min (c + 1 + ts.length) cfg.max_requests_per_cycle =
          min (c + (ts.length + 1)) cfg.max_requests_per_cycle := by omega
      rw [harith] at htl
      simpa [runSeq, hstep] using htl
    · have hstep := check_present_reject t cfg key l c s hk hb hwt
        (Nat.le_of_not_lt hc)
      have hb' : (Limiter.mk (updateBucket (cfg.name, key)
          { count := c, cycle_start := s } l.buckets)).find (cfg.name, key) =
          some { count := c, cycle_start := s } :=
        lookup_update_self _ _ _
      have htl := ih _ c s hb' hwts hcm
      have harith : min (c + ts.length) cfg.max_requests_per_cycle =
          min (c + (ts.length + 1)) cfg.max_requests_per_cycle := by omega
      rw [harith] at htl
      simpa [runSeq, hstep] using htl

theorem runSeq_countAdmitted (cfg : BucketConfig) (key : String) (hk : key ≠ "") :
    ∀ (ts : List Nat) (l : Limiter) (c s : Nat),
      l.find (cfg.name, key) = some { count := c, cycle_start := s } →
      (∀ t ∈ ts, t - s < cfg.cycle_duration) →
      countAdmitted (runSeq cfg key l ts).1 =
        min ts.length (cfg.max_requests_per_cycle - c) := by
  intro ts
  induction ts with
  | nil =>
    intro l c s hb hw
    simp [runSeq, countAdmitted]
  | cons t ts ih =>
    intro l c s hb hw
    have hwt : t - s < cfg.cycle_duration := hw t (by simp)
    have hwts : ∀ u ∈ ts, u - s < cfg.cycle_duration :=
      fun u hu => hw u (by simp [hu])
    by_cases hc : c < cfg.max_requests_per_cycle
    · have hstep := check_admits_present t cfg key l c s hk hb hwt hc
      have hb' : (Limiter.mk (updateBucket (cfg.name, key)
          { count := c + 1, cycle_start := s } l.buckets)).find (cfg.name, key) =
          some { count := c + 1, cycle_start := s } :=
        lookup_update_self _ _ _
      have htl := ih _ (c + 1) s hb' hwts
      simp [runSeq, hstep, countAdmitted, List.countP_cons, isAdmitted] at htl ⊢
      omega
    · have hstep := check_present_reject t cfg key l c s hk hb hwt
        (Nat.le_of_not_lt hc)
      have hb' : (Limiter.mk (updateBucket (cfg.name, key)
          { count := c, cycle_start := s } l.buckets)).find (cfg.name, key) =
          some { count := c, cycle_start := s } :=
        lookup_update_self _ _ _
      have htl := ih _ c s hb' hwts
      simp [runSeq, hstep, countAdmitted, List.countP_cons, isAdmitted] at htl ⊢
      omega

theorem runSeq_countRejected (cfg : BucketConfig) (key : String) (hk : key ≠ "") :
    ∀ (ts : List Nat) (l : Limiter) (c s : Nat),
      l.find (cfg.name, key) = some { count := c, cycle_start := s } →
      (∀ t ∈ ts, t - s < cfg.cycle_duration) →
      countRejected (runSeq cfg key l ts).1 =
        ts.length - min ts.length (cfg.max_requests_per_cycle - c) := by
  intro ts
  induction ts with
  | nil =>
    intro l c s hb hw
    simp [runSeq, countRejected]
  | cons t ts ih =>
    intro l c s hb hw
    have hwt : t - s < cfg.cycle_duration := hw t (by simp)
    have hwts : ∀ u ∈ ts, u - s < cfg.cycle_duration :=
      fun u hu => hw u (by simp [hu])
    by_cases hc : c < cfg.max_requests_per_cycle
    · have hstep := check_admits_present t cfg key l c s hk hb hwt hc
      have hb' : (Limiter.mk (updateBucket (cfg.name, key)
          { count := c + 1, cycle_start := s } l.buckets)).find (cfg.name, key) =
          some { count := c + 1, cycle_start := s } :=
        lookup_update_self _ _ _
      have htl := ih _ (c + 1) s hb' hwts
      simp [runSeq, hstep, countRejected, List.countP_cons, isRejected] at htl ⊢
      omega
    · have hstep := check_present_reject t cfg key l c s hk hb hwt
        (Nat.le_of_not_lt hc)
      have hb' : (Limiter.mk (updateBucket (cfg.name, key)
          { count := c, cycle_start := s } l.buckets)).find (cfg.name, key) =
          some { count := c, cycle_start := s } :=
        lookup_update_self _ _ _
      have htl := ih _ c s hb' hwts
      simp [runSeq, hstep, countRejected, List.countP_cons, isRejected] at htl ⊢
      omega

theorem runSeq_fresh_results (cfg : BucketConfig) (key : String) (hk : key ≠ "")
    (t0 : Nat) (rest : List Nat) (l : Limiter)
    (hfresh : l.find (cfg.name, key) = none)
    (hw : ∀ t ∈ t0 :: rest, t - t0 < cfg.cycle_duration) :
    ∀ (i ti : Nat), (t0 :: rest)[i]? = some ti →
      (runSeq cfg key l (t0 :: rest)).1[i]? =
        some (if i < cfg.max_requests_per_cycle then
                .ok (.Admitted ((cfg.max_requests_per_cycle : Int) -
                  ((i + 1 : Nat) : Int)))
              else
                .ok (.Rejected ((cfg.cycle_duration : Int) -
                  ((ti - t0 : Nat) : Int)))) := by
  intro i ti hti
  have hwrest : ∀ u ∈ rest, u - t0 < cfg.cycle_duration :=
    fun u hu => hw u (by simp [hu])
  by_cases hmax : 0 < cfg.max_requests_per_cycle
  · have hstep := check_admits_absent t0 cfg key l hk hfresh hmax
    have hb' : (Limiter.mk (updateBucket (cfg.name, key)
        { count := 1, cycle_start := t0 } l.buckets)).find (cfg.name, key) =
        some { count := 1, cycle_start := t0 } :=
      lookup_update_self _ _ _
    match i with
    | 0 =>
      simp at hti
      subst hti
      simp [runSeq, hstep, hmax]
    | i + 1 =>
      simp at hti
      have htl := runSeq_results cfg key hk rest _ 1 t0 hb' hwrest i ti hti
      have harith : 1 + i = i + 1 := by omega
      rw [harith] at htl
      simpa [runSeq, hstep] using htl
  · have hzero : cfg.max_requests_per_cycle = 0 := by omega
    have hstep := check_absent_reject t0 cfg key l hk hfresh hzero
    have hb' : (Limiter.mk (updateBucket (cfg.name, key)
        { count := 0, cycle_start := t0 } l.buckets)).find (cfg.name, key) =
        some { count := 0, cycle_start := t0 } :=
      lookup_update_self _ _ _
    match i with
    | 0 =>
      simp at hti
      subst hti
      simp [runSeq, hstep, hzero]
    | i + 1 =>
      simp at hti
      have htl := runSeq_results cfg key hk rest _ 0 t0 hb' hwrest i ti hti
      rw [if_neg (by omega)] at htl
      rw [if_neg (by omega)]
      simpa [runSeq, hstep] using htl

theorem runSeq_fresh_state (cfg : BucketConfig) (key : String) (hk : key ≠ "")
    (t0 : Nat) (rest : List Nat) (l : Limiter)
    (hfresh : l.find (cfg.name, key) = none)
    (hw : ∀ t ∈ t0 :: rest, t - t0 < cfg.cycle_duration) :
    ((runSeq cfg key l (t0 :: rest)).2).find (cfg.name, key) =
      some { count := min (t0 :: rest).length cfg.max_requests_per_cycle,
             cycle_start := t0 } := by
  have hwrest : ∀ u ∈ rest, u - t0 < cfg.cycle_duration :=
    fun u hu => hw u (by simp [hu])
  by_cases hmax : 0 < cfg.max_requests_per_cycle
  · have hstep := check_admits_absent t0 cfg key l hk hfresh hmax
    have hb' : (Limiter.mk (updateBucket (cfg.name, key)
        { count := 1, cycle_start := t0 } l.buckets)).find (cfg.name, key) =
        some { count := 1, cycle_start := t0 } :=
      lookup_update_self _ _ _
    have htl := runSeq_state cfg key hk rest _ 1 t0 hb' hwrest (by omega)
    have harith : min (1 + rest.length) cfg.max_requests_per_cycle =
        min (t0 :: rest).length cfg.max_requests_per_cycle := by
      simp [List.length_cons]
      omega
    rw [harith] at htl
    simpa [runSeq, hstep] using htl
  · have hzero : cfg.max_requests_per_cycle = 0 := by omega
    have hstep := check_absent_reject t0 cfg key l hk hfresh hzero
    have hb' : (Limiter.mk (updateBucket (cfg.name, key)
        { count := 0, cycle_start := t0 } l.buckets)).find (cfg.name, key) =
        some { count := 0, cycle_start := t0 } :=
      lookup_update_self _ _ _
    have htl := runSeq_state cfg key hk rest _ 0 t0 hb' hwrest (by omega)
    have harith : min (0 + rest.length) cfg.max_requests_per_cycle =
        min (t0 :: rest).length cfg.max_requests_per_cycle := by
      simp [List.length_cons]
      omega
    rw [harith] at htl
    simpa [runSeq, hstep] using htl

theorem runSeq_fresh_countAdmitted (cfg : BucketConfig) (key : String)
    (hk : key ≠ "") (t0 : Nat) (rest : List Nat) (l : Limiter)
    (hfresh : l.find (cfg.name, key) = none)
    (hw : ∀ t ∈ t0 :: rest, t - t0 < cfg.cycle_duration) :
    countAdmitted (runSeq cfg key l (t0 :: rest)).1 =
      min (t0 :: rest).length cfg.max_requests_per_cycle := by
  have hwrest : ∀ u ∈ rest, u - t0 < cfg.cycle_duration :=
    fun u hu => hw u (by simp [hu])
  by_cases hmax : 0 < cfg.max_requests_per_cycle
  · have hstep := check_admits_absent t0 cfg key l hk hfresh hmax
    have hb' : (Limiter.mk (updateBucket (cfg.name, key)
        { count := 1, cycle_start := t0 } l.buckets)).find (cfg.name, key) =
        some { count := 1, cycle_start := t0 } :=
      lookup_update_self _ _ _
    have htl := runSeq_countAdmitted cfg key hk rest _ 1 t0 hb' hwrest
    simp [runSeq, hstep, countAdmitted, List.countP_cons, isAdmitted] at htl ⊢
    omega
  · have hzero : cfg.max_requests_per_cycle = 0 := by omega
    have hstep := check_absent_reject t0 cfg key l hk hfresh hzero
    have hb' : (Limiter.mk (updateBucket (cfg.name, key)
        { count := 0, cycle_start := t0 } l.buckets)).find (cfg.name, key) =
        some { count := 0, cycle_start := t0 } :=
      lookup_update_self _ _ _
    have htl := runSeq_countAdmitted cfg key hk rest _ 0 t0 hb' hwrest
    simp [runSeq, hstep, countAdmitted, List.countP_cons, isAdmitted] at htl ⊢
    omega

theorem runSeq_fresh_countRejected (cfg : BucketConfig) (key : String)
    (hk : key ≠ "") (t0 : Nat) (rest : List Nat) (l : Limiter)
    (hfresh : l.find (cfg.name, key) = none)
    (hw : ∀ t ∈ t0 :: rest, t - t0 < cfg.cycle_duration) :
    countRejected (runSeq cfg key l (t0 :: rest)).1 =
      (t0 :: rest).length -
        min (t0 :: rest).length cfg.max_requests_per_cycle := by
  have hwrest : ∀ u ∈ rest, u - t0 < cfg.cycle_duration :=
    fun u hu => hw u (by simp [hu])
  by_cases hmax : 0 < cfg.max_requests_per_cycle
  · have hstep := check_admits_absent t0 cfg key l hk hfresh hmax
    have hb' : (Limiter.mk (updateBucket (cfg.name, key)
        { count := 1, cycle_start := t0 } l.buckets)).find (cfg.name, key) =
        some { count := 1, cycle_start := t0 } :=
      lookup_update_self _ _ _
    have htl := runSeq_countRejected cfg key hk rest _ 1 t0 hb' hwrest
    simp [runSeq, hstep, countRejected, List.countP_cons, isRejected] at htl ⊢
    omega
  · have hzero : cfg.max_requests_per_cycle = 0 := by omega
    have hstep := check_absent_reject t0 cfg key l hk hfresh hzero
    have hb' : (Limiter.mk (updateBucket (cfg.name, key)
        { count := 0, cycle_start := t0 } l.buckets)).find (cfg.name, key) =
        some { count := 0, cycle_start := t0 } :=
      lookup_update_self _ _ _
    have htl := runSeq_countRejected cfg key hk rest _ 0 t0 hb' hwrest
    simp [runSeq, hstep, countRejected, List.countP_cons, isRejected] at htl ⊢
    omega

/-- C1: for a bucket governed by a `BucketConfig` with
`max_requests_per_cycle = N` and a (non-empty) entity key not yet seen, a run
of `N + 1` calls to `check_and_increment` for that (policy name, entity key)
pair within one cycle admits each of the first `N` calls and rejects the
`(N + 1)`th. -/
theorem admission_ceiling (cfg : BucketConfig) (key : String)
    (l : Limiter) (ts : List Nat) (t0 : Nat)
    (hk : key ≠ "")
    (hfresh : l.find (cfg.name, key) = none)
    (hlen : ts.length = cfg.max_requests_per_cycle + 1)
    (h0 : ts[0]? = some t0)
    (hw : ∀ t ∈ ts, t - t0 < cfg.cycle_duration) :
    (∀ i, i < cfg.max_requests_per_cycle →
      ∃ rem, (runSeq cfg key l ts).1[i]? = some (.ok (.Admitted rem))) ∧
    (∃ ra, (runSeq cfg key l ts).1[cfg.max_requests_per_cycle]? =
      some (.ok (.Rejected ra))) := by
  match ts with
  | [] => simp at h0
  | t :: rest =>
    simp at h0
    subst h0
    simp at hlen
    constructor
    · intro i hi
      have hilen : i < (t :: rest).length := by simp; omega
      obtain ⟨ti, hti⟩ : ∃ ti, (t :: rest)[i]? = some ti :=
        ⟨(t :: rest)[i], by simp [List.getElem?_eq_getElem hilen]⟩
      have hres := runSeq_fresh_results cfg key hk t rest l hfresh hw i ti hti
      rw [if_pos hi] at hres
      exact ⟨_, hres⟩
    · have hilen : cfg.max_requests_per_cycle < (t :: rest).length := by
        simp
        omega
      obtain ⟨ti, hti⟩ : ∃ ti, (t :: rest)[cfg.max_requests_per_cycle]? = some ti :=
        ⟨(t :: rest)[cfg.max_requests_per_cycle], by
          simp [List.getElem?_eq_getElem hilen]⟩
      have hres := runSeq_fresh_results cfg key hk t rest l hfresh hw
        cfg.max_requests_per_cycle ti hti
      rw [if_neg (by omega)] at hres
      exact ⟨_, hres⟩

/-- C2: once a bucket's cycle has expired (`now - cycle_start >=
cycle_duration`), the next `check_and_increment` call performs the
fixed-window reset — count back to `0` and `cycle_start = now` — and admits
even if the prior cycle's budget was exhausted (any prior `count`, including
`count >= max`).  The admitted `remaining = max - 1` witnesses that the count
was reset to `0` before this call's increment; the post-call bucket holds
`count = 1` and `cycle_start = now`. -/
theorem cycle_rollover (cfg : BucketConfig) (key : String) (l : Limiter)
    (c s now : Nat) (hk : key ≠ "")
    (hb : l.find (cfg.name, key) = some { count := c, cycle_start := s })
    (hexp : cfg.cycle_duration ≤ now - s)
    (hmax : 0 < cfg.max_requests_per_cycle) :
    (check_and_increment now cfg key l).1 =
      .ok (.Admitted ((cfg.max_requests_per_cycle : Int) - 1)) ∧
    ((check_and_increment now cfg key l).2).find (cfg.name, key) =
      some { count := 1, cycle_start := now } := by
  rw [check_admits_rollover now cfg key l c s hk hb hexp hmax]
  exact ⟨rfl, lookup_update_self _ _ _⟩

/-- C3: in a run within one cycle starting from an unseen key, each admitted
call at position `i` returns `remaining = max_requests_per_cycle - (i + 1)`,
i.e. `max` minus the count after the increment — so `remaining` decreases by
exactly 1 per admitted call and is never negative; every call at a position
at or past the budget is rejected, and the bucket's count ends at
`min (number of calls) max`, never exceeding `max` (a rejected call does not
mutate the count). -/
theorem remaining_accuracy (cfg : BucketConfig) (key : String)
    (l : Limiter) (ts : List Nat) (t0 : Nat)
    (hk : key ≠ "")
    (hfresh : l.find (cfg.name, key) = none)
    (h0 : ts[0]? = some t0)
    (hw : ∀ t ∈ ts, t - t0 < cfg.cycle_duration) :
    (∀ i ti, ts[i]? = some ti → i < cfg.max_requests_per_cycle →
      (runSeq cfg key l ts).1[i]? =
        some (.ok (.Admitted ((cfg.max_requests_per_cycle : Int) -
          ((i + 1 : Nat) : Int)))) ∧
      (0 : Int) ≤ (cfg.max_requests_per_cycle : Int) - ((i + 1 : Nat) : Int)) ∧
    (∀ i ti, ts[i]? = some ti → cfg.max_requests_per_cycle ≤ i →
      ∃ ra, (runSeq cfg key l ts).1[i]? = some (.ok (.Rejected ra))) ∧
    ((runSeq cfg key l ts).2).find (cfg.name, key) =
      some { count := min ts.length cfg.max_requests_per_cycle,
             cycle_start := t0 } := by
  match ts with
  | [] => simp at h0
  | t :: rest =>
    simp at h0
    subst h0
    refine ⟨?_, ?_, ?_⟩
    · intro i ti hti hi
      have hres := runSeq_fresh_results cfg key hk t rest l hfresh hw i ti hti
      rw [if_pos hi] at hres
      constructor
      · exact hres
      · have : (i + 1 : Nat) ≤ cfg.max_requests_per_cycle := by omega
        have hcast : ((i + 1 : Nat) : Int) ≤ (cfg.max_requests_per_cycle : Int) := by
          exact_mod_cast this
        omega
    · intro i ti hti hi
      have hres := runSeq_fresh_results cfg key hk t rest l hfresh hw i ti hti
      rw [if_neg (by omega)] at hres
      exact ⟨_, hres⟩
    · exact runSeq_fresh_state cfg key hk t rest l hfresh hw

/-- C4: whenever `check_and_increment` returns `Rejected` (for a policy
honouring the invariant `max_requests_per_cycle > 0`), the bucket for the key
already existed, the returned `retry_after` equals
`cycle_duration - (now - cycle_start)` for that bucket, and it is strictly
positive and at most `cycle_duration`. -/
theorem retry_after_bound (cfg : BucketConfig) (key : String) (l : Limiter)
    (now : Nat) (ra : Int) (hk : key ≠ "")
    (hmax : 0 < cfg.max_requests_per_cycle)
    (h : (check_and_increment now cfg key l).1 = .ok (.Rejected ra)) :
    ∃ b : Bucket, l.find (cfg.name, key) = some b ∧
      ra = (cfg.cycle_duration : Int) - ((now - b.cycle_start : Nat) : Int) ∧
      0 < ra ∧ ra ≤ (cfg.cycle_duration : Int) := by
  cases hfb : l.find (cfg.name, key) with
  | none =>
    rw [check_admits_absent now cfg key l hk hfb hmax] at h
    simp at h
  | some b =>
    obtain ⟨c, s⟩ := b
    by_cases hexp : cfg.cycle_duration ≤ now - s
    · rw [check_admits_rollover now cfg key l c s hk hfb hexp hmax] at h
      simp at h
    · have hin : now - s < cfg.cycle_duration := Nat.lt_of_not_le hexp
      by_cases hc : c < cfg.max_requests_per_cycle
      · rw [check_admits_present now cfg key l c s hk hfb hin hc] at h
        simp at h
      · rw [check_present_reject now cfg key l c s hk hfb hin
          (Nat.le_of_not_lt hc)] at h
        simp only [Except.ok.injEq, Decision.Rejected.injEq] at h
        refine ⟨{ count := c, cycle_start := s }, rfl, h.symm, ?_, ?_⟩
        · have hcast : ((now - s : Nat) : Int) < (cfg.cycle_duration : Int) := by
            exact_mod_cast hin
          omega
        · have hcast : (0 : Int) ≤ ((now - s : Nat) : Int) := Int.natCast_nonneg _
          omega

/-- C5: buckets are keyed by the composite (policy name, entity key); a
`check_and_increment` call for one composite key leaves the bucket of every
other composite key unchanged — distinct entity keys under the same policy,
and distinct policy names over the same entity key, are fully independent. -/
theorem key_isolation (cfg : BucketConfig) (key : String) (l : Limiter)
    (now : Nat) (name' key' : String)
    (h : name' ≠ cfg.name ∨ key' ≠ key) :
    ((check_and_increment now cfg key l).2).find (name', key') =
      l.find (name', key') := by
  refine check_frame now cfg key l (name', key') ?_
  intro heq
  injection heq with h1 h2
  rcases h with h | h
  · exact h h1
  · exact h h2

/-- C6: the limiter is driven through a mutex, so a batch of `M` concurrent
`check_and_increment` calls for one (policy, key) pair executes as some
sequence of `M` serialized calls.  For every such sequence within one cycle
of a fresh bucket with `max_requests_per_cycle = N` and `M > N`, exactly `N`
calls are admitted and `M - N` rejected — the totals are deterministic
regardless of the interleaving order and call instants. -/
theorem concurrency_totals (cfg : BucketConfig) (key : String)
    (l : Limiter) (ts : List Nat) (t0 : Nat) (M N : Nat)
    (hk : key ≠ "")
    (hfresh : l.find (cfg.name, key) = none)
    (h0 : ts[0]? = some t0)
    (hw : ∀ t ∈ ts, t - t0 < cfg.cycle_duration)
    (hN : cfg.max_requests_per_cycle = N)
    (hM : ts.length = M)
    (hMN : N < M) :
    countAdmitted (runSeq cfg key l ts).1 = N ∧
    countRejected (runSeq cfg key l ts).1 = M - N := by
  match ts with
  | [] => simp at h0
  | t :: rest =>
    simp at h0
    subst h0
    have hA := runSeq_fresh_countAdmitted cfg key hk t rest l hfresh hw
    have hR := runSeq_fresh_countRejected cfg key hk t rest l hfresh hw
    simp at hM
    constructor
    · rw [hA]
      simp
      omega
    · rw [hR]
      simp
      omega

end Nervio

/-- C7: every route registered by `build_router` — when it is built over the
single global `BucketConfig` produced by `setup_limiter` — is wrapped by
exactly one rate-limiter middleware layer, namely the limiter middleware
carrying that global config, and that config limits by proxied client IP with
`max_requests_per_cycle = 20` and `cycle_duration = 60` seconds. -/
theorem router_gates_every_route (e : IamService.RouteEntry)
    (he : e ∈ (IamService.build_router IamService.setup_limiter.2).routes) :
    ((IamService.build_router IamService.setup_limiter.2).effectiveLayers e).countP
      IamService.MiddlewareLayer.isLimiter = 1 ∧
    IamService.MiddlewareLayer.limiterMiddleware IamService.setup_limiter.2 ∈
      (IamService.build_router IamService.setup_limiter.2).effectiveLayers e ∧
    IamService.setup_limiter.2 =
      { name := "service_global"
        limit_by := .ProxiedIP
        max_requests_per_cycle := 20
        cycle_duration := 60 } := by
  fin_cases he <;> refine ⟨by decide, by decide, by decide⟩

/-- C8 counterexample: a `BucketConfig` with `max_requests_per_cycle = 0` can
be constructed (the type has public fields and is built by a plain struct
literal, exactly as `setup_limiter` builds the real config — construction
cannot fail), and such a config reaches request-time `check_and_increment`,
which processes it normally and rejects the request. -/
theorem bucket_config_invalid_reaches_request_time :
    ({ name := "bad", limit_by := .ProxiedIP, max_requests_per_cycle := 0,
       cycle_duration := 60 } : Nervio.BucketConfig).max_requests_per_cycle = 0 ∧
    (Nervio.check_and_increment 0
      { name := "bad", limit_by := .ProxiedIP, max_requests_per_cycle := 0,
        cycle_duration := 60 } "1.2.3.4" { buckets := [] }).1 =
      .ok (.Rejected 60) := by
  constructor
  · rfl
  · rfl

/-- C8 (amended): `BucketConfig` construction is not validated — a config
with a zero request ceiling is constructible and flows into request-time
`check_and_increment` (where it rejects every request) — but the only
configuration the service constructs at startup, in `setup_limiter`,
satisfies the invariant: `max_requests_per_cycle = 20 > 0` and
`cycle_duration = 60 > 0`. -/
theorem bucket_config_construction_unvalidated :
    (∃ bad : Nervio.BucketConfig,
      bad.max_requests_per_cycle = 0 ∧
      Nervio.isRejected
        (Nervio.check_and_increment 0 bad "1.2.3.4" { buckets := [] }).1 = true) ∧
    0 < IamService.setup_limiter.2.max_requests_per_cycle ∧
    0 < IamService.setup_limiter.2.cycle_duration := by
  refine ⟨⟨{ name := "bad", limit_by := .ProxiedIP, max_requests_per_cycle := 0,
             cycle_duration := 60 }, rfl, rfl⟩, ?_, ?_⟩
  · decide
  · decide

/-- C9 counterexample: no value of the system's machine-readable error kind
(`CadenceError`, the `error` field of `APIResponseError`) has a kind — outer
or inner serde tag — meaning "rate limited"; a rate-limit rejection is
therefore not representable as a distinct machine-readable kind in the
envelope. -/
theorem no_rate_limited_kind :
    ¬ ∃ e : CadenceCommon.CadenceError,
      (e.kind ∈ CadenceCommon.rateLimitedKindStrings ∨
       e.subKind ∈ CadenceCommon.rateLimitedKindStrings) := by
  rintro ⟨e, h⟩
  rcases e with a | a | a | a | a <;> cases a <;>
    simp [CadenceCommon.CadenceError.kind, CadenceCommon.CadenceError.subKind,
      CadenceCommon.InputError.tag, CadenceCommon.AuthError.tag,
      CadenceCommon.EntityError.tag, CadenceCommon.DatabaseError.tag,
      CadenceCommon.ServerError.tag, CadenceCommon.rateLimitedKindStrings] at h

/-- C9 (amended): the structured error envelope carries a machine-readable
kind and a human-readable message, but its kinds are the closed families
input/auth/entity/database/server_error, none of which means "rate limited",
and a `CadenceError` carries exactly its (outer kind, inner kind, message
payload) triple — every payload is a single string, so there is no structured
field that could hold a `retry_after` duration.  A rate-limit rejection could
only be conveyed by reusing a generic kind with `retry_after` flattened into
the message text. -/
theorem cadence_error_kinds_closed :
    ∀ e : CadenceCommon.CadenceError,
      CadenceCommon.mkCadenceError e.kind e.subKind e.payload = some e ∧
      e.kind ∈ ["input", "auth", "entity", "database", "server_error"] ∧
      e.kind ∉ CadenceCommon.rateLimitedKindStrings ∧
      e.subKind ∉ CadenceCommon.rateLimitedKindStrings := by
  intro e
  rcases e with a | a | a | a | a <;> cases a <;>
    refine ⟨rfl, ?_, ?_, ?_⟩ <;>
    simp [CadenceCommon.CadenceError.kind, CadenceCommon.CadenceError.subKind,
      CadenceCommon.InputError.tag, CadenceCommon.AuthError.tag,
      CadenceCommon.EntityError.tag, CadenceCommon.DatabaseError.tag,
      CadenceCommon.ServerError.tag, CadenceCommon.rateLimitedKindStrings]

/-- C10 counterexample: `into_response` does not always use
`metadata.http_status` as the emitted HTTP status — for an envelope whose
`http_status` is `0` (outside the valid 100-999 range of
`StatusCode::from_u16`), the emitted status is the 500 fallback. -/
theorem into_response_fallback :
    rawStatusResponse.metadata.http_status = 0 ∧
    rawStatusResponse.into_response.status = 500 := by
  constructor
  · rfl
  · rfl

/-- C10 (amended): `failure(e, s)` yields `metadata.status = Failure`,
`metadata.http_status = s`, `data = none`, `errors = some e`; `success(d, t)`
yields `metadata.status = Success`, `metadata.http_status = 200`,
`data = some d`, `errors = none`; and `into_response` emits
`metadata.http_status` as the HTTP status whenever that value is a valid
status code (100-999) — which holds for every envelope produced by `success`
or `failure` — and falls back to 500 otherwise. -/
theorem api_response_envelope (T : Type) (now : Nat)
    (e : CadenceCommon.APIResponseError) (s : CadenceCommon.StatusCode)
    (d : T) (ty : CadenceCommon.APIResponseObjectType)
    (r : CadenceCommon.APIResponse T) :
    ((CadenceCommon.APIResponse.failure now e s : CadenceCommon.APIResponse T).metadata.status
        = .Failure ∧
      (CadenceCommon.APIResponse.failure now e s : CadenceCommon.APIResponse T).metadata.http_status
        = s.code ∧
      (CadenceCommon.APIResponse.failure now e s : CadenceCommon.APIResponse T).data = none ∧
      (CadenceCommon.APIResponse.failure now e s : CadenceCommon.APIResponse T).errors = some e ∧
      (CadenceCommon.APIResponse.failure now e s : CadenceCommon.APIResponse T).into_response.status
        = s.code) ∧
    ((CadenceCommon.APIResponse.success now d ty).metadata.status = .Success ∧
      (CadenceCommon.APIResponse.success now d ty).metadata.http_status = 200 ∧
      (CadenceCommon.APIResponse.success now d ty).data = some d ∧
      (CadenceCommon.APIResponse.success now d ty).errors = none ∧
      (CadenceCommon.APIResponse.success now d ty).into_response.status = 200) ∧
    (100 ≤ r.metadata.http_status → r.metadata.http_status ≤ 999 →
      r.into_response.status = r.metadata.http_status) ∧
    (¬ (100 ≤ r.metadata.http_status ∧ r.metadata.http_status ≤ 999) →
      r.into_response.status = 500) := by
  refine ⟨⟨rfl, rfl, rfl, rfl, ?_⟩, ⟨rfl, rfl, rfl, rfl, rfl⟩, ?_, ?_⟩
  · exact if_pos s.is_valid
  · intro h1 h2
    exact if_pos ⟨h1, h2⟩
  · intro h
    exact if_neg h

/-- Witness for C1 at the fixture policy (`N = 2`): three calls at instants
0, 1, 2 — the first two admitted, the third rejected. -/
theorem admission_ceiling_witness :
    (∀ i, i < cfgW.max_requests_per_cycle →
      ∃ rem, (Nervio.runSeq cfgW "1.2.3.4" emptyLimiter [0, 1, 2]).1[i]? =
        some (.ok (.Admitted rem))) ∧
    (∃ ra, (Nervio.runSeq cfgW "1.2.3.4"
        emptyLimiter [0, 1, 2]).1[cfgW.max_requests_per_cycle]? =
      some (.ok (.Rejected ra))) :=
  Nervio.admission_ceiling cfgW "1.2.3.4" emptyLimiter [0, 1, 2] 0
    (by decide) rfl rfl rfl (by decide)

/-- Witness for C2: a call at instant 10 on the exhausted fixture bucket
(cycle started at 0, duration 10) rolls the cycle over and admits. -/
theorem cycle_rollover_witness :
    (Nervio.check_and_increment 10 cfgW "1.2.3.4" busyLimiter).1 =
      .ok (.Admitted ((cfgW.max_requests_per_cycle : Int) - 1)) ∧
    ((Nervio.check_and_increment 10 cfgW "1.2.3.4" busyLimiter).2).find
      (cfgW.name, "1.2.3.4") = some { count := 1, cycle_start := 10 } :=
  Nervio.cycle_rollover cfgW "1.2.3.4" busyLimiter 2 0 10
    (by decide) rfl (by decide) (by decide)

/-- Witness for C3 at the fixture policy: four calls within one cycle —
admitted results carry `remaining = 1` then `0`, the rest are rejected, and
the bucket's count ends at `min 4 2 = 2`. -/
theorem remaining_accuracy_witness :
    (∀ i ti, ([0, 1, 2, 3] : List Nat)[i]? = some ti →
      i < cfgW.max_requests_per_cycle →
      (Nervio.runSeq cfgW "1.2.3.4" emptyLimiter [0, 1, 2, 3]).1[i]? =
        some (.ok (.Admitted ((cfgW.max_requests_per_cycle : Int) -
          ((i + 1 : Nat) : Int)))) ∧
      (0 : Int) ≤ (cfgW.max_requests_per_cycle : Int) - ((i + 1 : Nat) : Int)) ∧
    (∀ i ti, ([0, 1, 2, 3] : List Nat)[i]? = some ti →
      cfgW.max_requests_per_cycle ≤ i →
      ∃ ra, (Nervio.runSeq cfgW "1.2.3.4" emptyLimiter [0, 1, 2, 3]).1[i]? =
        some (.ok (.Rejected ra))) ∧
    ((Nervio.runSeq cfgW "1.2.3.4" emptyLimiter [0, 1, 2, 3]).2).find
      (cfgW.name, "1.2.3.4") =
      some { count := min ([0, 1, 2, 3] : List Nat).length
               cfgW.max_requests_per_cycle,
             cycle_start := 0 } :=
  Nervio.remaining_accuracy cfgW "1.2.3.4" emptyLimiter [0, 1, 2, 3] 0
    (by decide) rfl rfl (by decide)

/-- Witness for C4: the rejected call at instant 3 on the exhausted fixture
bucket returns `retry_after = 10 - 3 = 7`, strictly positive and at most the
cycle duration. -/
theorem retry_after_bound_witness :
    ∃ b : Nervio.Bucket,
      busyLimiter.find (cfgW.name, "1.2.3.4") = some b ∧
      (7 : Int) = (cfgW.cycle_duration : Int) - ((3 - b.cycle_start : Nat) : Int) ∧
      (0 : Int) < 7 ∧ (7 : Int) ≤ (cfgW.cycle_duration : Int) :=
  Nervio.retry_after_bound cfgW "1.2.3.4" busyLimiter 3 7
    (by decide) (by decide) rfl

/-- Witness for C5: a call for entity key `1.2.3.4` leaves the bucket slot of
entity key `5.6.7.8` under the same policy unchanged. -/
theorem key_isolation_witness :
    ((Nervio.check_and_increment 0 cfgW "1.2.3.4" busyLimiter).2).find
      ("p", "5.6.7.8") = busyLimiter.find ("p", "5.6.7.8") :=
  Nervio.key_isolation cfgW "1.2.3.4" busyLimiter 0 "p" "5.6.7.8"
    (Or.inr (by decide))

/-- Witness for C6 at the fixture policy: five serialized calls within one
cycle (`M = 5 > N = 2`) yield exactly 2 admissions and 3 rejections. -/
theorem concurrency_totals_witness :
    Nervio.countAdmitted
      (Nervio.runSeq cfgW "1.2.3.4" emptyLimiter [0, 0, 0, 0, 0]).1 = 2 ∧
    Nervio.countRejected
      (Nervio.runSeq cfgW "1.2.3.4" emptyLimiter [0, 0, 0, 0, 0]).1 = 3 :=
  Nervio.concurrency_totals cfgW "1.2.3.4" emptyLimiter [0, 0, 0, 0, 0] 0 5 2
    (by decide) rfl rfl (by decide) rfl rfl (by decide)

/-- Witness for C7 at the first registered route (`POST /auth/token`): it is
wrapped by exactly one limiter layer carrying the global config. -/
theorem router_gates_every_route_witness :
    ((IamService.build_router IamService.setup_limiter.2).effectiveLayers
        { path := "/auth/token"
          handlers := [(.post, "request_token_controller")]
          route_layers := [] }).countP
      IamService.MiddlewareLayer.isLimiter = 1 ∧
    IamService.MiddlewareLayer.limiterMiddleware IamService.setup_limiter.2 ∈
      (IamService.build_router IamService.setup_limiter.2).effectiveLayers
        { path := "/auth/token"
          handlers := [(.post, "request_token_controller")]
          route_layers := [] } ∧
    IamService.setup_limiter.2 =
      { name := "service_global"
        limit_by := .ProxiedIP
        max_requests_per_cycle := 20
        cycle_duration := 60 } :=
  router_gates_every_route
    { path := "/auth/token"
      handlers := [(.post, "request_token_controller")]
      route_layers := [] }
    (by decide)

/-- Witness for C10 (amended): a failure envelope built with status 404 is
emitted with status 404, and `into_response` of the concrete valid-status
envelope uses its `metadata.http_status`. -/
theorem api_response_envelope_witness :
    (CadenceCommon.APIResponse.failure 0 errW scW :
        CadenceCommon.APIResponse Unit).into_response.status = scW.code ∧
    respW.into_response.status = respW.metadata.http_status :=
  ⟨(api_response_envelope Unit 0 errW scW () .Account respW).1.2.2.2.2,
   (api_response_envelope Unit 0 errW scW () .Account respW).2.2.1
     (by decide) (by decide)⟩

end Spec2Proof
